import Mathlib

/-!
Verification of the OG-MARL trajectory storage engine and training-loop
orchestrator (`og_marl/replay_buffers.py`, `og_marl/tf2/systems/base.py`,
`og_marl/tf2_systems/offline/base.py`) as a shallow embedding in Lean 4.

The repository-level code (`FlashbaxReplayBuffer` and the training loops) is
translated directly from the Python source.  The external collaborators it
calls — the flashbax trajectory buffer, the flashbax `Vault`, and
`jax.random` — are not part of the repository source tree, so they are
modelled from the specification (each such definition carries a doc comment
beginning `Modelled from the spec:`).  Machine floats in the source
(rewards, episode returns) are modelled by `ℚ`; the concrete reward values
exercised below are exactly representable, so the rational model agrees
with the floating-point computation on them.
-/

set_option maxRecDepth 10000

namespace OGMarl

/-! ## Data model: timesteps and the flashbax trajectory buffer -/

/-- One timestep's multi-agent record, the unit written by
`FlashbaxReplayBuffer.add`: per-agent observations, actions, rewards,
terminal flags, truncation flags and auxiliary info. -/
structure Timestep where
  observations : List (List ℚ)
  actions : List Int
  rewards : List ℚ
  terminals : List Bool
  truncations : List Bool
  infos : List (List ℚ)
deriving DecidableEq

/-- The static configuration produced by `fbx.make_trajectory_buffer`:
the six keyword arguments passed at the two construction sites in
`og_marl/replay_buffers.py`. -/
structure BufferConfig where
  add_batch_size : Nat
  sample_batch_size : Nat
  sample_sequence_length : Nat
  period : Nat
  min_length_time_axis : Nat
  max_size : Nat
deriving DecidableEq

/-- `fbx.make_trajectory_buffer(...)`: records the sampling/storage
configuration (the pure `sample`/`add` functions derived from it are
`buffer_sample`/`buffer_add` below, applied to this configuration). -/
def make_trajectory_buffer (add_batch_size sample_batch_size sample_sequence_length
    period min_length_time_axis max_size : Nat) : BufferConfig :=
  { add_batch_size := add_batch_size
    sample_batch_size := sample_batch_size
    sample_sequence_length := sample_sequence_length
    period := period
    min_length_time_axis := min_length_time_axis
    max_size := max_size }

/-- The mutable state of a flashbax trajectory buffer: the stored
experience along the time axis, the monotonically advancing write cursor,
and the fullness flag. -/
structure TrajectoryBufferState where
  experience : List Timestep
  current_index : Nat
  is_full : Bool
deriving DecidableEq

/-- Modelled from the spec (§4.1 `init`): the buffer returned by
`replay_buffer.init(timestep)` captures the schema of the first timestep
and starts with empty storage and cursor at zero. -/
def buffer_init (_first : Timestep) : TrajectoryBufferState :=
  { experience := [], current_index := 0, is_full := false }

/-- Modelled from the spec (§3, §4.1 `add`): write the new transition at
the cursor and advance it; once the store holds `max_size` time-steps
(per batch slot of `add_batch_size`), each further write evicts exactly
the oldest live transition (FIFO ring eviction, never an error). -/
def buffer_add (cfg : BufferConfig) (st : TrajectoryBufferState) (ts : Timestep) :
    TrajectoryBufferState :=
  let max_length_time_axis := cfg.max_size / cfg.add_batch_size
  let experience :=
    if st.experience.length < max_length_time_axis then st.experience ++ [ts]
    else st.experience.tail ++ [ts]
  { experience := experience
    current_index := st.current_index + 1
    is_full := st.is_full || decide (max_length_time_axis ≤ st.current_index + 1) }

/-- Modelled from the spec (§4.2): the valid window start offsets are the
multiples of `period` that leave `sample_sequence_length` contiguous
stored steps ahead, recomputed from the store's current contents on every
call. -/
def valid_starts (cfg : BufferConfig) (st : TrajectoryBufferState) : List Nat :=
  (List.range st.experience.length).filter
    (fun i => decide (i % cfg.period = 0 ∧
      i + cfg.sample_sequence_length ≤ st.experience.length))

/-- The batch returned by one sample call: the chosen window start offsets
and the corresponding contiguous windows of stored timesteps. -/
structure Experience where
  starts : List Nat
  windows : List (List Timestep)
deriving DecidableEq

/-- Modelled from the spec (§4.1 `sample`, §4.2): sampling fails with a
buffer-underflow error when fewer than `min_length_time_axis` transitions
have ever been written; otherwise it draws `sample_batch_size` start
offsets from the valid-offset set, each chosen deterministically from the
generator key, and returns the windows at those offsets. -/
def buffer_sample (cfg : BufferConfig) (st : TrajectoryBufferState) (key : Nat) :
    Option Experience :=
  if st.current_index < cfg.min_length_time_axis then none
  else
    let valid := valid_starts cfg st
    let pick : Nat → Nat := fun j =>
      if valid.length = 0 then 0 else valid.getD ((key + j) % valid.length) 0
    let starts := (List.range cfg.sample_batch_size).map pick
    some { starts := starts
           windows := starts.map
             (fun i => (st.experience.drop i).take cfg.sample_sequence_length) }

/-- Modelled from the spec (§9 threaded random state): `jax.random.split`
as a pure, deterministic key-derivation function returning the replacement
key and the key to use for the current call. -/
def jax_random_split (key : Nat) : Nat × Nat :=
  (2 * key + 1, 2 * key + 2)

/-- Modelled from the spec (§6): `jax.random.PRNGKey(seed)` derives the
initial generator key from the seed. -/
def jax_PRNGKey (seed : Nat) : Nat := seed

/-! ## Vault persistence -/

/-- Modelled from the spec (§4.3): a durable snapshot under a vault
address is either readable (holding a complete stored buffer state) or
present but unreadable. -/
inductive VaultEntry
  | readable (st : TrajectoryBufferState)
  | unreadable
deriving DecidableEq

/-- Modelled from the spec (§4.3): durable vault storage, a finite map
from the address `(rel_dir, vault_name, vault_uid)` to its entry. -/
abbrev VaultStore := List ((String × String × String) × VaultEntry)

/-- Look up the entry stored at an address, `none` when absent. -/
def vault_lookup : VaultStore → String × String × String → Option VaultEntry
  | [], _ => none
  | (k, e) :: rest, key => if k = key then some e else vault_lookup rest key

/-- Modelled from the spec (§4.3 `read`): `Vault(vault_name, vault_uid,
rel_dir).read()` loads the complete stored buffer state; an absent or
unreadable target makes the read fail (the `ValueError` caught by the
caller), here `none`. -/
def vault_read (vaults : VaultStore) (rel_dir vault_name vault_uid : String) :
    Option TrajectoryBufferState :=
  match vault_lookup vaults (rel_dir, vault_name, vault_uid) with
  | some (VaultEntry.readable st) => some st
  | some VaultEntry.unreadable => none
  | none => none

/-! ## FlashbaxReplayBuffer (og_marl/replay_buffers.py) -/

/-- The state of a `FlashbaxReplayBuffer`: the construction parameters it
retains, the current buffer configuration, the buffer state (`None` until
the first `add` or a vault load), and the threaded generator key. -/
structure FlashbaxReplayBuffer where
  sequence_length : Nat
  max_size : Nat
  batch_size : Nat
  replay_buffer : BufferConfig
  buffer_state : Option TrajectoryBufferState
  rng_key : Nat
deriving DecidableEq

/-- `FlashbaxReplayBuffer.__init__(sequence_length, max_size, batch_size,
sample_period, seed)`: builds the trajectory buffer with
`add_batch_size=1`, `min_length_time_axis=1` and the given parameters,
leaves the buffer state unset and seeds the generator key. -/
def FlashbaxReplayBuffer.init (sequence_length max_size batch_size sample_period
    seed : Nat) : FlashbaxReplayBuffer :=
  { sequence_length := sequence_length
    max_size := max_size
    batch_size := batch_size
    replay_buffer :=
      make_trajectory_buffer 1 batch_size sequence_length sample_period 1 max_size
    buffer_state := none
    rng_key := jax_PRNGKey seed }

/-- `FlashbaxReplayBuffer.add(...)`: on the first call initialise the
buffer state from the timestep's structure, then write the timestep. -/
def FlashbaxReplayBuffer.add (buf : FlashbaxReplayBuffer) (ts : Timestep) :
    FlashbaxReplayBuffer :=
  let st :=
    match buf.buffer_state with
    | none => buffer_init ts
    | some s => s
  { buf with buffer_state := some (buffer_add buf.replay_buffer st ts) }

/-- A sequence of `add` calls, oldest first. -/
def add_all (buf : FlashbaxReplayBuffer) : List Timestep → FlashbaxReplayBuffer
  | [] => buf
  | t :: ts => add_all (buf.add t) ts

/-- `FlashbaxReplayBuffer.sample()`: split the stored generator key into
the replacement key and the sample key, draw a batch from the buffer
state with the sample key, and store the replacement key.  A call on an
uninitialised store, or an underflowing draw, fails (`none`, the raised
exception in the source). -/
def FlashbaxReplayBuffer.sample (buf : FlashbaxReplayBuffer) :
    Option (FlashbaxReplayBuffer × Experience) :=
  let keys := jax_random_split buf.rng_key
  match buf.buffer_state with
  | none => none
  | some st =>
    match buffer_sample buf.replay_buffer st keys.2 with
    | none => none
    | some exp => some ({ buf with rng_key := keys.1 }, exp)

/-- `FlashbaxReplayBuffer.populate_from_vault(env_name, scenario_name,
dataset_name, rel_dir)`: read the vault named `env_name/scenario_name.vlt`
with uid `dataset_name`; on success install the loaded state and recreate
the buffer functions with `period = 1`, `min_length_time_axis = 1` and
`max_size = sequence_length`, returning `true`; on a read failure (the
caught `ValueError`) return `false` with the store untouched. -/
def FlashbaxReplayBuffer.populate_from_vault (buf : FlashbaxReplayBuffer)
    (vaults : VaultStore) (env_name scenario_name dataset_name rel_dir : String) :
    FlashbaxReplayBuffer × Bool :=
  match vault_read vaults rel_dir (env_name ++ "/" ++ scenario_name ++ ".vlt")
      dataset_name with
  | some st =>
    ({ buf with
        buffer_state := some st
        replay_buffer :=
          make_trajectory_buffer 1 buf.batch_size buf.sequence_length 1 1
            buf.sequence_length },
      true)
  | none => (buf, false)

/-! ## Training orchestrator (og_marl/tf2/systems/base.py and
og_marl/tf2_systems/offline/base.py)

The environment is a synchronous, opaque collaborator, so an episode is
embedded as the script of step results the environment returns: per-agent
rewards, terminal flags and truncation flags for each successive step.
Buffer mutation, the sampled batch and the learner's `train_step` do not
influence the loops' control flow or counters, so a training attempt is
recorded as the environment-step counter value at which the
sample/train/log block runs. -/

/-- The result of one `environment.step(actions)` call, as consumed by
the loops: per-agent rewards, terminal flags and truncation flags. -/
structure StepRec where
  rewards : List ℚ
  terminals : List Bool
  truncations : List Bool
deriving DecidableEq

/-- The episode-end test used verbatim in `BaseMARLSystem.train_online`,
`BaseMARLSystem.evaluate` and `BaseOfflineSystem.evaluate`:
`all(terminals.values()) or all(truncations.values())`. -/
def episode_done (s : StepRec) : Bool :=
  s.terminals.all id || s.truncations.all id

/-- `np.mean` of a list of rationals (per-step mean of per-agent
rewards). -/
def np_mean (l : List ℚ) : ℚ := l.sum / (l.length : ℚ)

/-- The inner while-loop of `BaseMARLSystem.evaluate` and
`BaseOfflineSystem.evaluate` over a scripted episode: accumulate the mean
reward of each step into the episode return and stop at the first step
whose `episode_done` test holds.  Returns the episode return and the
number of steps executed. -/
def eval_episode : List StepRec → ℚ × Nat
  | [] => (0, 0)
  | s :: rest =>
    if episode_done s then (np_mean s.rewards, 1)
    else
      let r := eval_episode rest
      (np_mean s.rewards + r.1, r.2 + 1)

/-- The warm-up/period gate of `BaseMARLSystem.train_online`:
`env_step_ctr > 100 and env_step_ctr % train_period == 0`. -/
def train_gate (train_period s : Nat) : Bool :=
  decide (100 < s ∧ s % train_period = 0)

/-- What one episode of `BaseMARLSystem.train_online` produces: the
environment-step counter after the episode, the counter values at which a
train step was attempted, the accumulated episode return, and the number
of environment steps executed. -/
structure EpisodeResult where
  ctr : Nat
  train_events : List Nat
  episode_return : ℚ
  steps : Nat

/-- The inner while-loop of `BaseMARLSystem.train_online` over a scripted
episode, starting from environment-step counter `ctr`: each step adds the
transition, accumulates the step's mean reward, increments the counter,
attempts a train step when the gate holds, and breaks when the
episode-done test holds. -/
def train_online_episode (train_period ctr : Nat) : List StepRec → EpisodeResult
  | [] => { ctr := ctr, train_events := [], episode_return := 0, steps := 0 }
  | s :: rest =>
    let c := ctr + 1
    let evs := if train_gate train_period c then [c] else []
    if episode_done s then
      { ctr := c, train_events := evs, episode_return := np_mean s.rewards, steps := 1 }
    else
      let r := train_online_episode train_period c rest
      { ctr := r.ctr
        train_events := evs ++ r.train_events
        episode_return := np_mean s.rewards + r.episode_return
        steps := r.steps + 1 }

/-- What a `train_online` run produces: the final environment-step
counter, the train-attempt counter values, and the number of episodes
run. -/
structure RunResult where
  ctr : Nat
  train_events : List Nat
  episodes : Nat

/-- The outer while-loop of `BaseMARLSystem.train_online` over a list of
scripted episodes: run an episode, then break when the environment-step
counter exceeds `max_env_steps`. -/
def train_online_loop (train_period max_env_steps ctr : Nat) :
    List (List StepRec) → RunResult
  | [] => { ctr := ctr, train_events := [], episodes := 0 }
  | ep :: rest =>
    let r := train_online_episode train_period ctr ep
    if max_env_steps < r.ctr then
      { ctr := r.ctr, train_events := r.train_events, episodes := 1 }
    else
      let res := train_online_loop train_period max_env_steps r.ctr rest
      { ctr := res.ctr
        train_events := r.train_events ++ res.train_events
        episodes := res.episodes + 1 }

/-- `BaseMARLSystem.train_online(replay_buffer, max_env_steps,
train_period)`: the loop starting from environment-step counter 0. -/
def train_online (train_period max_env_steps : Nat) (script : List (List StepRec)) :
    RunResult :=
  train_online_loop train_period max_env_steps 0 script

/-- The cumulative environment-step count after the first `k` episodes of
a script (each episode contributes the steps executed before its
episode-done break). -/
def online_boundary (train_period : Nat) (script : List (List StepRec)) (k : Nat) : Nat :=
  ((script.take k).map (fun ep => (train_online_episode train_period 0 ep).steps)).sum

/-- The body of `BaseMARLSystem.train_offline`: starting from trainer-step
counter `ctr` with `fuel` training steps remaining, evaluate whenever
`ctr % evaluate_every == 0`, then sample/train and increment; after the
loop run one final evaluation.  Returns the trainer-step counter values at
which an evaluation ran. -/
def train_offline_go (evaluate_every : Nat) : Nat → Nat → List Nat
  | ctr, 0 => [ctr]
  | ctr, fuel + 1 =>
    (if ctr % evaluate_every = 0 then [ctr] else []) ++
      train_offline_go evaluate_every (ctr + 1) fuel

/-- `BaseMARLSystem.train_offline(replay_buffer, max_trainer_steps,
evaluate_every, ...)`: the `while trainer_step_ctr < max_trainer_steps`
loop starting from counter 0 (one iteration per counter value), followed
by the final evaluation. -/
def train_offline_evals (max_trainer_steps evaluate_every : Nat) : List Nat :=
  train_offline_go evaluate_every 0 max_trainer_steps

/-- The body of `BaseOfflineSystem.train`: starting from
`training_step_ctr = ctr` with `fuel` iterations of the
`for _ in range(training_steps)` loop remaining, evaluate whenever
`training_step_ctr % evaluation_every == 0`, then sample/train and
increment; after the loop run the final evaluation. -/
def offline_train_go (evaluation_every : Nat) : Nat → Nat → List Nat
  | ctr, 0 => [ctr]
  | ctr, fuel + 1 =>
    (if ctr % evaluation_every = 0 then [ctr] else []) ++
      offline_train_go evaluation_every (ctr + 1) fuel

/-- `BaseOfflineSystem.train(replay_buffer, training_steps,
evaluation_every, num_eval_episodes)` with the trainer-step counter at its
construction value 0. -/
def offline_train_evals (training_steps evaluation_every : Nat) : List Nat :=
  offline_train_go evaluation_every 0 training_steps

/-! ## Concrete data for witnesses and counterexamples -/

/-- A structurally trivial timestep (schema irrelevant to the claims). -/
def ts0 : Timestep :=
  { observations := [], actions := [], rewards := [], terminals := [],
    truncations := [], infos := [] }

/-- A stored dataset whose time axis holds 100 transitions. -/
def vstate1 : TrajectoryBufferState :=
  { experience := List.replicate 100 ts0, current_index := 100, is_full := true }

/-- A vault store holding the readable dataset `Good` for scenario `3m`
of environment `smac_v1` under the default `vaults` directory. -/
def vaults1 : VaultStore :=
  [(("vaults", "smac_v1/3m.vlt", "Good"), VaultEntry.readable vstate1)]

/-- A store constructed with `sequence_length = 5`, `max_size = 1000`,
`batch_size = 32`, `sample_period = 2`, `seed = 0`. -/
def buf5 : FlashbaxReplayBuffer := FlashbaxReplayBuffer.init 5 1000 32 2 0

/-- The spec's episode-return scenario: 3 agents, 2 steps, step-1 rewards
1, 1, 1 and step-2 rewards 0, 2, 1, the second step terminal for all
agents. -/
def demo_episode : List StepRec :=
  [{ rewards := [1, 1, 1], terminals := [false, false, false],
     truncations := [false, false, false] },
   { rewards := [0, 2, 1], terminals := [true, true, true],
     truncations := [false, false, false] }]

/-- A non-final environment step: one agent, neither terminal nor
truncated. -/
def step_alive : StepRec :=
  { rewards := [0], terminals := [false], truncations := [false] }

/-- A final environment step: one agent, terminal. -/
def step_done : StepRec :=
  { rewards := [0], terminals := [true], truncations := [false] }

/-- A scripted episode of exactly 30 environment steps. -/
def episode30 : List StepRec := List.replicate 29 step_alive ++ [step_done]

/-- A script of four 30-step episodes (120 environment steps in total). -/
def script4 : List (List StepRec) := List.replicate 4 episode30

/-! ## Helper lemmas -/

/-- `add_all` never changes the buffer configuration. -/
theorem add_all_replay_buffer (ts : List Timestep) :
    ∀ buf : FlashbaxReplayBuffer, (add_all buf ts).replay_buffer = buf.replay_buffer := by
  induction ts with
  | nil => intro buf; rfl
  | cons t ts ih => intro buf; rw [add_all, ih]; rfl

/-- `buffer_add` always advances the write cursor by exactly one. -/
theorem buffer_add_current_index (cfg : BufferConfig) (st : TrajectoryBufferState)
    (t : Timestep) : (buffer_add cfg st t).current_index = st.current_index + 1 := rfl

/-- After one `add`, the buffer state exists and its write cursor is at
least 1. -/
theorem add_buffer_state (buf : FlashbaxReplayBuffer) (t : Timestep) :
    ∃ st : TrajectoryBufferState,
      (buf.add t).buffer_state = some st ∧ 1 ≤ st.current_index := by
  cases h : buf.buffer_state with
  | none =>
    refine ⟨buffer_add buf.replay_buffer (buffer_init t) t, ?_, ?_⟩
    · simp [FlashbaxReplayBuffer.add, h]
    · rw [buffer_add_current_index]; omega
  | some s =>
    refine ⟨buffer_add buf.replay_buffer s t, ?_, ?_⟩
    · simp [FlashbaxReplayBuffer.add, h]
    · rw [buffer_add_current_index]; omega

/-- Further `add` calls never move the write cursor backwards. -/
theorem add_all_buffer_state (ts : List Timestep) :
    ∀ (buf : FlashbaxReplayBuffer) (st : TrajectoryBufferState),
      buf.buffer_state = some st →
      ∃ st', (add_all buf ts).buffer_state = some st' ∧
        st.current_index ≤ st'.current_index := by
  induction ts with
  | nil => intro buf st h; exact ⟨st, h, le_refl _⟩
  | cons t ts ih =>
    intro buf st h
    have h2 : (buf.add t).buffer_state = some (buffer_add buf.replay_buffer st t) := by
      simp [FlashbaxReplayBuffer.add, h]
    obtain ⟨st', h3, h4⟩ := ih (buf.add t) _ h2
    refine ⟨st', h3, ?_⟩
    rw [buffer_add_current_index] at h4
    omega

/-- Appending two adjacent step-1 ranges. -/
theorem range'_append_one : ∀ (m s n : Nat),
    List.range' s m ++ List.range' (s + m) n = List.range' s (m + n) := by
  intro m
  induction m with
  | zero => intro s n; simp
  | succ k ih =>
    intro s n
    have h1 : s + (k + 1) = (s + 1) + k := by omega
    have h2 : k + 1 + n = (k + n) + 1 := by omega
    rw [List.range'_succ, h1, List.cons_append, ih (s + 1) n, h2, ← List.range'_succ]

/-- The trainer-step values at which `train_offline_go` evaluates. -/
theorem train_offline_go_eq (e : Nat) : ∀ (fuel ctr : Nat),
    train_offline_go e ctr fuel =
      ((List.range' ctr fuel).filter (fun s => decide (s % e = 0))) ++ [ctr + fuel] := by
  intro fuel
  induction fuel with
  | zero => intro ctr; simp [train_offline_go]
  | succ f ih =>
    intro ctr
    have hn : ctr + 1 + f = ctr + (f + 1) := by omega
    rw [train_offline_go, ih (ctr + 1), hn, List.range'_succ, List.filter_cons]
    by_cases h : ctr % e = 0 <;> simp [h]

/-- The trainer-step values at which `offline_train_go` evaluates. -/
theorem offline_train_go_eq (e : Nat) : ∀ (fuel ctr : Nat),
    offline_train_go e ctr fuel =
      ((List.range' ctr fuel).filter (fun s => decide (s % e = 0))) ++ [ctr + fuel] := by
  intro fuel
  induction fuel with
  | zero => intro ctr; simp [offline_train_go]
  | succ f ih =>
    intro ctr
    have hn : ctr + 1 + f = ctr + (f + 1) := by omega
    rw [offline_train_go, ih (ctr + 1), hn, List.range'_succ, List.filter_cons]
    by_cases h : ctr % e = 0 <;> simp [h]

/-- The environment-step counter advances by exactly the number of steps
an episode executes. -/
theorem train_online_episode_ctr (p : Nat) : ∀ (l : List StepRec) (c : Nat),
    (train_online_episode p c l).ctr = c + (train_online_episode p c l).steps := by
  intro l
  induction l with
  | nil => intro c; simp [train_online_episode]
  | cons s rest ih =>
    intro c
    cases hd : episode_done s with
    | true => simp [train_online_episode, hd]
    | false =>
      simp only [train_online_episode, hd]
      simp only [Bool.false_eq_true, if_false]
      rw [ih (c + 1)]
      omega

/-- The number of steps an episode executes does not depend on the
starting value of the environment-step counter. -/
theorem train_online_episode_steps_invariant (p : Nat) : ∀ (l : List StepRec) (c c' : Nat),
    (train_online_episode p c l).steps = (train_online_episode p c' l).steps := by
  intro l
  induction l with
  | nil => intro c c'; rfl
  | cons s rest ih =>
    intro c c'
    cases hd : episode_done s with
    | true => simp [train_online_episode, hd]
    | false =>
      simp only [train_online_episode, hd]
      simp only [Bool.false_eq_true, if_false]
      rw [ih (c + 1) (c' + 1)]

/-- Within one episode, train steps are attempted exactly at the gated
counter values among the counters the episode visits. -/
theorem train_online_episode_events (p : Nat) : ∀ (l : List StepRec) (c : Nat),
    (train_online_episode p c l).train_events =
      (List.range' (c + 1) (train_online_episode p c l).steps).filter (train_gate p) := by
  intro l
  induction l with
  | nil => intro c; simp [train_online_episode]
  | cons s rest ih =>
    intro c
    cases hd : episode_done s with
    | true =>
      simp [train_online_episode, hd, List.range'_succ, List.filter_cons]
    | false =>
      simp only [train_online_episode, hd]
      simp only [Bool.false_eq_true, if_false]
      rw [ih (c + 1), List.range'_succ, List.filter_cons]
      by_cases hg : train_gate p (c + 1) = true <;> simp [hg]

/-- The outer online loop never moves the counter backwards. -/
theorem train_online_loop_ctr_le (p max : Nat) : ∀ (l : List (List StepRec)) (c : Nat),
    c ≤ (train_online_loop p max c l).ctr := by
  intro l
  induction l with
  | nil => intro c; exact le_refl c
  | cons ep rest ih =>
    intro c
    have h1 := train_online_episode_ctr p ep c
    by_cases hmax : max < (train_online_episode p c ep).ctr
    · simp only [train_online_loop, if_pos hmax]
      omega
    · simp only [train_online_loop, if_neg hmax]
      have h2 := ih (train_online_episode p c ep).ctr
      omega

/-- Across the whole online loop, train steps are attempted exactly at the
gated counter values among the counters the run visits. -/
theorem train_online_loop_events (p max : Nat) : ∀ (l : List (List StepRec)) (c : Nat),
    (train_online_loop p max c l).train_events =
      (List.range' (c + 1) ((train_online_loop p max c l).ctr - c)).filter (train_gate p) := by
  intro l
  induction l with
  | nil => intro c; simp [train_online_loop]
  | cons ep rest ih =>
    intro c
    have h1 := train_online_episode_ctr p ep c
    by_cases hmax : max < (train_online_episode p c ep).ctr
    · simp only [train_online_loop, if_pos hmax]
      rw [train_online_episode_events]
      have h2 : (train_online_episode p c ep).ctr - c = (train_online_episode p c ep).steps := by
        omega
      rw [h2]
    · simp only [train_online_loop, if_neg hmax]
      have h3 := ih (train_online_episode p c ep).ctr
      have h4 := train_online_loop_ctr_le p max rest (train_online_episode p c ep).ctr
      rw [train_online_episode_events, h3, ← List.filter_append]
      have h5 : (train_online_episode p c ep).ctr + 1 =
          (c + 1) + (train_online_episode p c ep).steps := by omega
      rw [h5, range'_append_one]
      have h6 : (train_online_episode p c ep).steps +
            ((train_online_loop p max (train_online_episode p c ep).ctr rest).ctr -
              (train_online_episode p c ep).ctr) =
          (train_online_loop p max (train_online_episode p c ep).ctr rest).ctr - c := by
        omega
      rw [h6]

/-- `online_boundary` at zero episodes. -/
theorem online_boundary_zero (p : Nat) (script : List (List StepRec)) :
    online_boundary p script 0 = 0 := by
  simp [online_boundary]

/-- `online_boundary` unfolded by one episode. -/
theorem online_boundary_succ (p : Nat) (ep : List StepRec) (rest : List (List StepRec))
    (k : Nat) :
    online_boundary p (ep :: rest) (k + 1) =
      (train_online_episode p 0 ep).steps + online_boundary p rest k := by
  simp [online_boundary, List.take_succ_cons]

/-- The outer online loop runs exactly up to (and including) the first
episode whose end pushes the counter past the budget. -/
theorem train_online_loop_halt (p max : Nat) : ∀ (l : List (List StepRec)) (c : Nat),
    c ≤ max →
    (∃ k, k ≤ l.length ∧ max < c + online_boundary p l k) →
    ((train_online_loop p max c l).episodes ≤ l.length ∧
     max < c + online_boundary p l (train_online_loop p max c l).episodes ∧
     ∀ j < (train_online_loop p max c l).episodes, c + online_boundary p l j ≤ max) := by
  intro l
  induction l with
  | nil =>
    intro c hc hex
    obtain ⟨k, hk, hgt⟩ := hex
    simp only [List.length_nil, Nat.le_zero] at hk
    subst hk
    rw [online_boundary_zero] at hgt
    omega
  | cons ep rest ih =>
    intro c hc hex
    obtain ⟨k, hk, hgt⟩ := hex
    have hsteps : (train_online_episode p c ep).ctr =
        c + (train_online_episode p 0 ep).steps := by
      rw [train_online_episode_ctr, train_online_episode_steps_invariant p ep c 0]
    by_cases hmax : max < (train_online_episode p c ep).ctr
    · simp only [train_online_loop, if_pos hmax]
      refine ⟨by simp, ?_, ?_⟩
      · rw [online_boundary_succ, online_boundary_zero]
        omega
      · intro j hj
        have hj0 : j = 0 := by omega
        subst hj0
        rw [online_boundary_zero]
        omega
    · have hle : (train_online_episode p c ep).ctr ≤ max := by omega
      have hex' : ∃ k', k' ≤ rest.length ∧
          max < (train_online_episode p c ep).ctr + online_boundary p rest k' := by
        cases k with
        | zero =>
          rw [online_boundary_zero] at hgt
          omega
        | succ k' =>
          refine ⟨k', by simpa using hk, ?_⟩
          rw [online_boundary_succ] at hgt
          omega
      obtain ⟨h1, h2, h3⟩ := ih (train_online_episode p c ep).ctr hle hex'
      simp only [train_online_loop, if_neg hmax]
      refine ⟨?_, ?_, ?_⟩
      · simpa using h1
      · rw [online_boundary_succ]
        omega
      · intro j hj
        cases j with
        | zero =>
          rw [online_boundary_zero]
          omega
        | succ j' =>
          rw [online_boundary_succ]
          have h7 := h3 j' (by simpa using hj)
          omega

/-! ## Claims -/

/-- C2: for every pair of stores with identical buffer contents, identical
sampling configuration and identical generator-key state, `sample` returns
the identical selection of windows on both; the key is not implicit global
state — a successful `sample` consumes the stored key and replaces it with
the updated key from `jax_random_split`, leaving contents and
configuration unchanged, so the selection is a deterministic function of
the store state and the key. -/
theorem sample_deterministic_key_threaded (b1 b2 : FlashbaxReplayBuffer)
    (hcfg : b1.replay_buffer = b2.replay_buffer)
    (hst : b1.buffer_state = b2.buffer_state)
    (hkey : b1.rng_key = b2.rng_key) :
    Option.map Prod.snd b1.sample = Option.map Prod.snd b2.sample ∧
    ∀ b' exp, b1.sample = some (b', exp) →
      b'.rng_key = (jax_random_split b1.rng_key).1 ∧
      b'.buffer_state = b1.buffer_state ∧
      b'.replay_buffer = b1.replay_buffer := by
  constructor
  · cases hb : b2.buffer_state with
    | none => simp [FlashbaxReplayBuffer.sample, hcfg, hst, hkey, hb]
    | some st =>
      cases hs : buffer_sample b2.replay_buffer st (jax_random_split b2.rng_key).2 with
      | none => simp [FlashbaxReplayBuffer.sample, hcfg, hst, hkey, hb, hs]
      | some e => simp [FlashbaxReplayBuffer.sample, hcfg, hst, hkey, hb, hs]
  · intro b' exp h
    cases hb : b1.buffer_state with
    | none => simp [FlashbaxReplayBuffer.sample, hb] at h
    | some st =>
      cases hs : buffer_sample b1.replay_buffer st (jax_random_split b1.rng_key).2 with
      | none => simp [FlashbaxReplayBuffer.sample, hb, hs] at h
      | some e =>
        simp [FlashbaxReplayBuffer.sample, hb, hs] at h
        cases h.1
        exact ⟨rfl, rfl, rfl⟩

/-- C2 witness: the determinism theorem instantiated at the concrete
store `buf5` compared with itself. -/
theorem sample_deterministic_key_threaded_witness :
    Option.map Prod.snd buf5.sample = Option.map Prod.snd buf5.sample ∧
    ∀ b' exp, buf5.sample = some (b', exp) →
      b'.rng_key = (jax_random_split buf5.rng_key).1 ∧
      b'.buffer_state = buf5.buffer_state ∧
      b'.replay_buffer = buf5.replay_buffer :=
  sample_deterministic_key_threaded buf5 buf5 rfl rfl rfl

/-- C1 counterexample: a store constructed with `sequence_length = 5`
loads a vault dataset whose stored time-axis length is 100;
`populate_from_vault` succeeds, yet the rebuilt buffer's capacity is 5,
not the dataset's stored length. -/
theorem populate_capacity_counterexample :
    (buf5.populate_from_vault vaults1 "smac_v1" "3m" "Good" "vaults").2 = true ∧
    vstate1.experience.length = 100 ∧
    ¬ ((buf5.populate_from_vault vaults1 "smac_v1" "3m" "Good" "vaults").1.replay_buffer.max_size
        = vstate1.experience.length) := by
  decide

/-- C1 (amended): for every store, when `populate_from_vault` succeeds the
rebuilt buffer's capacity equals the `sequence_length` given at
construction — not the loaded dataset's stored time-axis length, and
possibly differing from the constructed `max_size`. -/
theorem populate_success_capacity_eq_sequence_length (buf : FlashbaxReplayBuffer)
    (vaults : VaultStore) (env scenario dataset rel_dir : String)
    (h : (buf.populate_from_vault vaults env scenario dataset rel_dir).2 = true) :
    (buf.populate_from_vault vaults env scenario dataset rel_dir).1.replay_buffer.max_size
      = buf.sequence_length := by
  cases hv : vault_read vaults rel_dir (env ++ "/" ++ scenario ++ ".vlt") dataset with
  | none => simp [FlashbaxReplayBuffer.populate_from_vault, hv] at h
  | some st => simp [FlashbaxReplayBuffer.populate_from_vault, hv, make_trajectory_buffer]

/-- C1 witness: the amended capacity theorem at the concrete successful
load of `vaults1` into `buf5`. -/
theorem populate_success_capacity_eq_sequence_length_witness :
    (buf5.populate_from_vault vaults1 "smac_v1" "3m" "Good" "vaults").1.replay_buffer.max_size
      = buf5.sequence_length :=
  populate_success_capacity_eq_sequence_length buf5 vaults1 "smac_v1" "3m" "Good" "vaults"
    (by decide)

/-- C6: for every vault address whose target is absent or unreadable,
`populate_from_vault` returns the failure value `false` to its caller
(rather than propagating the read failure), so the caller can fetch a
remote copy and retry. -/
theorem populate_absent_or_unreadable_returns_false (buf : FlashbaxReplayBuffer)
    (vaults : VaultStore) (env scenario dataset rel_dir : String)
    (h : vault_lookup vaults (rel_dir, env ++ "/" ++ scenario ++ ".vlt", dataset) = none ∨
         vault_lookup vaults (rel_dir, env ++ "/" ++ scenario ++ ".vlt", dataset)
           = some VaultEntry.unreadable) :
    (buf.populate_from_vault vaults env scenario dataset rel_dir).2 = false := by
  rcases h with h | h <;>
    simp [FlashbaxReplayBuffer.populate_from_vault, vault_read, h]

/-- C6 witness: the graceful-failure theorem at an empty vault store (the
requested snapshot is absent). -/
theorem populate_absent_or_unreadable_returns_false_witness :
    (buf5.populate_from_vault [] "smac_v1" "8m" "Poor" "vaults").2 = false :=
  populate_absent_or_unreadable_returns_false buf5 [] "smac_v1" "8m" "Poor" "vaults"
    (Or.inl rfl)

/-- C7: `min_length_time_axis` is fixed to 1 at construction for every
choice of parameters; `sample` on a store to which no transition has ever
been added fails; and once at least one (i.e. at least
`min_length_time_axis`) transition has been written, `sample` succeeds. -/
theorem sample_underflow_min_length_one
    (sequence_length max_size batch_size sample_period seed : Nat)
    (t : Timestep) (ts : List Timestep) :
    (FlashbaxReplayBuffer.init sequence_length max_size batch_size sample_period
        seed).replay_buffer.min_length_time_axis = 1 ∧
    (FlashbaxReplayBuffer.init sequence_length max_size batch_size sample_period
        seed).sample = none ∧
    (add_all (FlashbaxReplayBuffer.init sequence_length max_size batch_size sample_period
        seed) (t :: ts)).sample.isSome = true := by
  refine ⟨rfl, rfl, ?_⟩
  obtain ⟨st, hst, h1⟩ :=
    add_buffer_state (FlashbaxReplayBuffer.init sequence_length max_size batch_size
      sample_period seed) t
  obtain ⟨st', hst', h2⟩ := add_all_buffer_state ts _ st hst
  have hcfg := add_all_replay_buffer ts
    ((FlashbaxReplayBuffer.init sequence_length max_size batch_size sample_period seed).add t)
  show (add_all ((FlashbaxReplayBuffer.init sequence_length max_size batch_size
      sample_period seed).add t) ts).sample.isSome = true
  have hmin : (add_all ((FlashbaxReplayBuffer.init sequence_length max_size batch_size
      sample_period seed).add t) ts).replay_buffer.min_length_time_axis = 1 := by
    rw [hcfg]; rfl
  simp only [FlashbaxReplayBuffer.sample, hst', buffer_sample, hmin]
  rw [if_neg (by omega)]
  simp

/-- C9: after every successful `populate_from_vault`, the sampling
machinery is rebuilt with `period = 1` and capacity `sequence_length`,
regardless of the `sample_period` and `max_size` given at construction,
and the batch selected by a subsequent `sample` call is governed by the
rebuilt configuration: two stores constructed with different
`sample_period`/`max_size` but the same `sequence_length`, `batch_size`
and `seed` carry equal rebuilt configurations and select identical
batches. -/
theorem populate_rebuilds_sampler (sequence_length m1 m2 batch_size sp1 sp2 seed : Nat)
    (vaults : VaultStore) (env scenario dataset rel_dir : String)
    (h : ((FlashbaxReplayBuffer.init sequence_length m1 batch_size sp1
        seed).populate_from_vault vaults env scenario dataset rel_dir).2 = true) :
    ((FlashbaxReplayBuffer.init sequence_length m1 batch_size sp1
        seed).populate_from_vault vaults env scenario dataset rel_dir).1.replay_buffer.period
      = 1 ∧
    ((FlashbaxReplayBuffer.init sequence_length m1 batch_size sp1
        seed).populate_from_vault vaults env scenario dataset rel_dir).1.replay_buffer.max_size
      = sequence_length ∧
    ((FlashbaxReplayBuffer.init sequence_length m1 batch_size sp1
        seed).populate_from_vault vaults env scenario dataset rel_dir).1.replay_buffer
      = ((FlashbaxReplayBuffer.init sequence_length m2 batch_size sp2
        seed).populate_from_vault vaults env scenario dataset rel_dir).1.replay_buffer ∧
    Option.map Prod.snd
        ((FlashbaxReplayBuffer.init sequence_length m1 batch_size sp1
          seed).populate_from_vault vaults env scenario dataset rel_dir).1.sample
      = Option.map Prod.snd
        ((FlashbaxReplayBuffer.init sequence_length m2 batch_size sp2
          seed).populate_from_vault vaults env scenario dataset rel_dir).1.sample := by
  cases hv : vault_read vaults rel_dir (env ++ "/" ++ scenario ++ ".vlt") dataset with
  | none => simp [FlashbaxReplayBuffer.populate_from_vault, hv] at h
  | some st =>
    refine ⟨?_, ?_, ?_, ?_⟩
    · simp [FlashbaxReplayBuffer.populate_from_vault, hv, FlashbaxReplayBuffer.init,
        make_trajectory_buffer]
    · simp [FlashbaxReplayBuffer.populate_from_vault, hv, FlashbaxReplayBuffer.init,
        make_trajectory_buffer]
    · simp [FlashbaxReplayBuffer.populate_from_vault, hv, FlashbaxReplayBuffer.init,
        make_trajectory_buffer]
    · cases hs : buffer_sample
        (make_trajectory_buffer 1 batch_size sequence_length 1 1 sequence_length) st
        (jax_random_split (jax_PRNGKey seed)).2 with
      | none =>
        simp [FlashbaxReplayBuffer.populate_from_vault, hv, FlashbaxReplayBuffer.sample,
          FlashbaxReplayBuffer.init, hs]
      | some e =>
        simp [FlashbaxReplayBuffer.populate_from_vault, hv, FlashbaxReplayBuffer.sample,
          FlashbaxReplayBuffer.init, hs]

/-- C9 witness: the rebuild theorem at two stores differing in
`sample_period` (2 vs 7) and `max_size` (1000 vs 3), loading the concrete
vault `vaults1`. -/
theorem populate_rebuilds_sampler_witness :
    ((FlashbaxReplayBuffer.init 5 1000 32 2
        0).populate_from_vault vaults1 "smac_v1" "3m" "Good" "vaults").1.replay_buffer.period
      = 1 ∧
    ((FlashbaxReplayBuffer.init 5 1000 32 2
        0).populate_from_vault vaults1 "smac_v1" "3m" "Good" "vaults").1.replay_buffer.max_size
      = 5 ∧
    ((FlashbaxReplayBuffer.init 5 1000 32 2
        0).populate_from_vault vaults1 "smac_v1" "3m" "Good" "vaults").1.replay_buffer
      = ((FlashbaxReplayBuffer.init 5 3 32 7
        0).populate_from_vault vaults1 "smac_v1" "3m" "Good" "vaults").1.replay_buffer ∧
    Option.map Prod.snd
        ((FlashbaxReplayBuffer.init 5 1000 32 2
          0).populate_from_vault vaults1 "smac_v1" "3m" "Good" "vaults").1.sample
      = Option.map Prod.snd
        ((FlashbaxReplayBuffer.init 5 3 32 7
          0).populate_from_vault vaults1 "smac_v1" "3m" "Good" "vaults").1.sample :=
  populate_rebuilds_sampler 5 1000 3 32 2 7 0 vaults1 "smac_v1" "3m" "Good" "vaults"
    (by decide)

/-- C10: `populate_from_vault` is atomic on failure — whenever it returns
`false`, the store (buffer contents, sampling configuration and generator
key alike) is exactly what it was before the call. -/
theorem populate_failure_atomic (buf : FlashbaxReplayBuffer) (vaults : VaultStore)
    (env scenario dataset rel_dir : String)
    (h : (buf.populate_from_vault vaults env scenario dataset rel_dir).2 = false) :
    (buf.populate_from_vault vaults env scenario dataset rel_dir).1 = buf := by
  cases hv : vault_read vaults rel_dir (env ++ "/" ++ scenario ++ ".vlt") dataset with
  | none => simp [FlashbaxReplayBuffer.populate_from_vault, hv]
  | some st => simp [FlashbaxReplayBuffer.populate_from_vault, hv] at h

/-- C10 witness: the atomicity theorem at a concrete failing load (empty
vault store). -/
theorem populate_failure_atomic_witness :
    (buf5.populate_from_vault [] "smac_v1" "8m" "Poor" "vaults").1 = buf5 :=
  populate_failure_atomic buf5 [] "smac_v1" "8m" "Poor" "vaults" rfl

/-- C3: the episode-end test used in the online collection loop and in
both evaluation loops holds exactly when all agents' terminal flags are
true or all agents' truncation flags are true (conjunction over agents
within each flag, disjunction between the flags); while some agent is
neither terminal nor truncated, the episode does not end. -/
theorem episode_done_characterisation (r : List ℚ) (ts tr : List Bool) :
    (episode_done { rewards := r, terminals := ts, truncations := tr } = true ↔
      ((∀ b ∈ ts, b = true) ∨ (∀ b ∈ tr, b = true))) ∧
    ((false, false) ∈ ts.zip tr →
      episode_done { rewards := r, terminals := ts, truncations := tr } = false) := by
  have hiff : episode_done { rewards := r, terminals := ts, truncations := tr } = true ↔
      ((∀ b ∈ ts, b = true) ∨ (∀ b ∈ tr, b = true)) := by
    simp [episode_done, List.all_eq_true, id_eq]
  refine ⟨hiff, fun hmem => ?_⟩
  obtain ⟨h1, h2⟩ := List.of_mem_zip hmem
  cases hdone : episode_done { rewards := r, terminals := ts, truncations := tr } with
  | false => rfl
  | true =>
    rcases hiff.mp hdone with hall | hall
    · exact absurd (hall false h1) (by simp)
    · exact absurd (hall false h2) (by simp)

/-- C3 witness: with one agent terminal, one agent truncated-free and
alive, the episode is not over. -/
theorem episode_done_characterisation_witness :
    episode_done { rewards := [0, 0], terminals := [false, true]
                   truncations := [false, false] } = false :=
  (episode_done_characterisation [0, 0] [false, true] [false, false]).2 (by decide)

/-- C4: in online training, starting from environment-step counter 0, a
train step (the sample/train/log block) is attempted exactly at the
visited counter values s with s > 100 and s divisible by `train_period`
(so never before the 100-step warm-up threshold is crossed), and the loop
halts at the first episode boundary at which the cumulative counter
exceeds `max_env_steps`. -/
theorem train_attempt_cadence_and_halt (train_period max_env_steps : Nat)
    (script : List (List StepRec)) (_hp : 0 < train_period)
    (hterm : ∃ k, k ≤ script.length ∧
      max_env_steps < online_boundary train_period script k) :
    (train_online train_period max_env_steps script).train_events =
      (List.range' 1 (train_online train_period max_env_steps script).ctr).filter
        (train_gate train_period) ∧
    (train_online train_period max_env_steps script).episodes ≤ script.length ∧
    max_env_steps < online_boundary train_period script
      (train_online train_period max_env_steps script).episodes ∧
    ∀ j < (train_online train_period max_env_steps script).episodes,
      online_boundary train_period script j ≤ max_env_steps := by
  have h1 := train_online_loop_events train_period max_env_steps script 0
  have h2 := train_online_loop_halt train_period max_env_steps script 0
    (Nat.zero_le _) (by simpa using hterm)
  refine ⟨?_, ?_⟩
  · simpa using h1
  · simpa using h2

/-- C4 witness: with `max_env_steps = 100`, `train_period = 20` and four
scripted 30-step episodes, the run attempts training exactly at the gated
counters in 1..120 (that is, at 120 only), runs 4 episodes, and the
counter first exceeds 100 at the fourth episode boundary. -/
theorem train_attempt_cadence_and_halt_witness :
    (train_online 20 100 script4).train_events =
      (List.range' 1 (train_online 20 100 script4).ctr).filter (train_gate 20) ∧
    (train_online 20 100 script4).episodes ≤ script4.length ∧
    100 < online_boundary 20 script4 (train_online 20 100 script4).episodes ∧
    ∀ j < (train_online 20 100 script4).episodes,
      online_boundary 20 script4 j ≤ 100 :=
  train_attempt_cadence_and_halt 20 100 script4 (by decide)
    ⟨4, by decide, by decide⟩

/-- C5: in both offline training loops, starting from trainer-step
counter 0 with budget `T` and period `e`, evaluation runs exactly at the
counter values below `T` divisible by `e`, in order, plus exactly one
additional evaluation after the final training step; in particular with
`T = 1000`, `e = 200` the evaluations are at 0, 200, 400, 600, 800 and
once after step 1000. -/
theorem offline_evaluation_cadence (T e : Nat) :
    train_offline_evals T e =
      ((List.range T).filter (fun s => decide (s % e = 0))) ++ [T] ∧
    offline_train_evals T e =
      ((List.range T).filter (fun s => decide (s % e = 0))) ++ [T] ∧
    train_offline_evals 1000 200 = [0, 200, 400, 600, 800, 1000] ∧
    offline_train_evals 1000 200 = [0, 200, 400, 600, 800, 1000] := by
  refine ⟨?_, ?_, by decide, by decide⟩
  · rw [train_offline_evals, train_offline_go_eq, ← List.range_eq_range', Nat.zero_add]
  · rw [offline_train_evals, offline_train_go_eq, ← List.range_eq_range', Nat.zero_add]

/-- C8: in the online collection loop and in the evaluation loops alike,
the episode return equals the sum over the episode's executed steps of
the mean of that step's per-agent rewards; on the spec's scenario — 3
agents, 2 steps, step-1 rewards 1, 1, 1 and step-2 rewards 0, 2, 1 —
both loops accumulate an episode return of 2. -/
theorem episode_return_is_sum_of_step_means :
    (∀ steps : List StepRec,
      (eval_episode steps).1 =
        ((steps.take (eval_episode steps).2).map (fun s => np_mean s.rewards)).sum) ∧
    (∀ (steps : List StepRec) (train_period ctr : Nat),
      (train_online_episode train_period ctr steps).episode_return =
        ((steps.take (train_online_episode train_period ctr steps).steps).map
          (fun s => np_mean s.rewards)).sum) ∧
    (eval_episode demo_episode).1 = 2 ∧
    (train_online_episode 20 0 demo_episode).episode_return = 2 := by
  refine ⟨?_, ?_, ?_, ?_⟩
  · intro steps
    induction steps with
    | nil => simp [eval_episode]
    | cons s rest ih =>
      cases hdone : episode_done s with
      | true => simp [eval_episode, hdone]
      | false =>
        simp only [eval_episode, hdone]
        simp only [Bool.false_eq_true, if_false]
        rw [List.take_succ_cons, List.map_cons, List.sum_cons, ih]
  · intro steps
    induction steps with
    | nil => intro train_period ctr; simp [train_online_episode]
    | cons s rest ih =>
      intro train_period ctr
      cases hdone : episode_done s with
      | true => simp [train_online_episode, hdone]
      | false =>
        simp only [train_online_episode, hdone]
        simp only [Bool.false_eq_true, if_false]
        rw [List.take_succ_cons, List.map_cons, List.sum_cons, ih]
  · norm_num [eval_episode, demo_episode, episode_done, np_mean]
  · norm_num [train_online_episode, demo_episode, episode_done, np_mean, train_gate]

end OGMarl
